import Mathlib

/-
Verification development for the graceland_web server backend
(src/server/models.py, src/server/schemas.py, src/server/app.py).

The Python code is shallowly embedded as pure Lean functions:
  * SQLAlchemy rows become plain records, the database becomes a `Store`
    of lists of rows; `query.filter_by(...).first()` becomes
    `(list.filter p).head?` and `query.get(id)` becomes `list.find?`.
  * marshmallow validators become functions returning `Except VErr Unit`,
    where `VErr` carries either a plain message or a field -> messages map,
    exactly as the Python code raises `ValidationError`.
  * Flask's session dict (whose keys may be Python strings or ints) is a
    list of `PyKey x Nat` pairs; request JSON bodies are string dictionaries.
  * A raised exception that a handler catches with `except Exception as e:`
    is modelled by the handler returning the 500 response the handler
    builds from `str(e)`; an exception no handler catches is modelled with
    the `CSOut.exn` constructor (the framework turns it into a 500).
-/

/-- JSON-ish values appearing in response bodies. -/
inductive JVal where
  | str (s : String)
  | num (n : Nat)
  | null
  | obj (kvs : List (String × String))
  deriving DecidableEq

/-- A Python dict key in the Flask session: either a string or an int
(`session['user_id']` uses the string key, the buggy
`session.pop(user_id, None)` in Logout uses an int key). -/
inductive PyKey where
  | str (s : String)
  | int (n : Nat)
  deriving DecidableEq

/-- A JSON request body, as produced by `request.get_json()`. -/
abbrev Dict := List (String × String)

/-- The Flask server-side session mapping. -/
abbrev Session := List (PyKey × Nat)

/-- An HTTP response: status code plus JSON body. -/
abbrev Resp := Nat × List (String × JVal)

/-- Result of a handler with no try/except: either a returned response or
an exception propagating to the framework. -/
inductive CSOut where
  | resp (r : Resp)
  | exn (e : String)
  deriving DecidableEq

/-- Errors raised by schema validators (`marshmallow.ValidationError`),
carrying either a plain message or a field-to-messages mapping. -/
inductive VErr where
  | msg (m : String)
  | fieldMsgs (field : String) (msgs : List String)
  deriving DecidableEq

def hasKey (d : Dict) (k : String) : Bool :=
  d.any (fun kv => kv.1 == k)

def dGet (d : Dict) (k : String) : Option String :=
  (d.find? (fun kv => kv.1 == k)).map (fun kv => kv.2)

def sessGet (sess : Session) (k : PyKey) : Option Nat :=
  (sess.find? (fun kv => kv.1 == k)).map (fun kv => kv.2)

def sessPop (sess : Session) (k : PyKey) : Session :=
  sess.filter (fun kv => !(kv.1 == k))

def sessSet (sess : Session) (k : PyKey) (v : Nat) : Session :=
  sess.filter (fun kv => !(kv.1 == k)) ++ [(k, v)]

/-- Python `str(KeyError(k))` is the key wrapped in single quotes. -/
def keyErrStr (k : String) : String :=
  "\x27" ++ k ++ "\x27"

-- ============================================
-- Rows (models.py)
-- ============================================

/-- models.py `Member`: profile row owned by a user. -/
structure MemberRec where
  id : Nat
  user_id : Nat
  first_name : String
  last_name : String
  phone : String
  address : String
  join_date : String
  deriving DecidableEq

/-- models.py `User`: id, unique username, unique email, `_password_hash`
column, created_at, optional one-to-one member profile. An account with no
stored hash is modelled by the empty string (Python falsy). -/
structure UserRec where
  id : Nat
  username : String
  email : String
  _password_hash : String
  created_at : String
  member : Option MemberRec
  deriving DecidableEq

/-- models.py `Group`: self-referential via optional parent_group_id. -/
structure GroupRec where
  id : Nat
  name : String
  group_type : String
  parent_group_id : Option Nat
  leader_id : Option Nat
  deriving DecidableEq

/-- models.py `GroupMember` (lines 147-157): note that in the source BOTH
`user_id` and `group_id` carry their own `unique=True` constraint. -/
structure GroupMemberRow where
  id : Nat
  user_id : Nat
  group_id : Nat
  role : String
  deriving DecidableEq

/-- models.py `Event`: optional max_attendees cap; `registrations` is the
relationship collection (all rows with this event_id, any status). -/
structure EventRec where
  id : Nat
  title : String
  max_attendees : Option Nat
  deriving DecidableEq

/-- models.py `EventRegistration`: status is confirmed/pending/cancelled. -/
structure EventRegistrationRec where
  id : Nat
  event_id : Nat
  user_id : Nat
  guests_count : Nat
  status : String
  deriving DecidableEq

/-- models.py `Page`: unique slug. -/
structure PageRec where
  id : Nat
  title : String
  slug : String
  status : String
  deriving DecidableEq

/-- The relational store: one list per table used by the claims. -/
structure Store where
  users : List UserRec
  groups : List GroupRec
  group_members : List GroupMemberRow
  events : List EventRec
  registrations : List EventRegistrationRec
  pages : List PageRec
  deriving DecidableEq

/-- The SQLAlchemy relationship `Event.registrations`: every registration
row of the event, regardless of status. -/
def eventRegistrationsOf (s : Store) (eid : Nat) : List EventRegistrationRec :=
  s.registrations.filter (fun r => r.event_id == eid)

-- ============================================
-- Serialization (schemas.py dump side)
-- ============================================

/-- MemberSchema dump: all Member columns (scalar values as strings). -/
def memberSchemaDump (m : MemberRec) : List (String × String) :=
  [("id", toString m.id), ("user_id", toString m.user_id),
   ("first_name", m.first_name), ("last_name", m.last_name),
   ("phone", m.phone), ("address", m.address), ("join_date", m.join_date)]

/-- UserSchema.get_full_name: "first last" if a member profile exists,
else None. -/
def fullNameJVal (u : UserRec) : JVal :=
  match u.member with
  | some m => JVal.str (m.first_name ++ " " ++ m.last_name)
  | none => JVal.null

/-- UserSchema dump (schemas.py lines 42-55): auto-generated column fields
minus the `Meta.exclude = ('_password_hash',)` entry, plus the declared
`member` nested field and the `full_name` method field. -/
def userSchemaDump (u : UserRec) : List (String × JVal) :=
  [("id", JVal.num u.id), ("username", JVal.str u.username),
   ("email", JVal.str u.email), ("created_at", JVal.str u.created_at),
   ("member", match u.member with
              | some m => JVal.obj (memberSchemaDump m)
              | none => JVal.null),
   ("full_name", fullNameJVal u)]

/-- Nested user dump used with `only=('id', 'email', 'full_name')`. -/
def userNestedDump (u : UserRec) : List (String × JVal) :=
  [("id", JVal.num u.id), ("email", JVal.str u.email),
   ("full_name", fullNameJVal u)]

/-- UserCreateSchema dump (schemas.py lines 66-73): its
`Meta.exclude = ('id', 'created_at')` removes only those two auto fields;
the declared `password` field is load_only, so the dumped fields are
username, email and the `_password_hash` column, which is NOT excluded. -/
def userCreateSchemaDump (u : UserRec) : List (String × JVal) :=
  [("username", JVal.str u.username), ("email", JVal.str u.email),
   ("_password_hash", JVal.str u._password_hash)]

-- ============================================
-- Validators (schemas.py load side)
-- ============================================

/-- UserSchema.validate_email (schemas.py lines 57-63): look up an
existing user by email; raise unless the hit is the instance itself. -/
def validate_email (s : Store) (inst : Option UserRec) (value : String) :
    Except VErr Unit :=
  match (s.users.filter (fun u => u.email == value)).head? with
  | some existing =>
      if (match inst with
          | none => true
          | some inst => existing.id != inst.id) then
        Except.error (VErr.msg "Email already registered")
      else Except.ok ()
  | none => Except.ok ()

/-- Python `len(value)` over the characters of the string. -/
def pyLen (v : String) : Nat := v.data.length

/-- Python `any(char.isdigit() for char in value)`. -/
def hasDigit (v : String) : Bool := v.data.any Char.isDigit

/-- Python `any(char.isupper() for char in value)`. -/
def hasUpper (v : String) : Bool := v.data.any Char.isUpper

/-- Python `any(char.islower() for char in value)`. -/
def hasLower (v : String) : Bool := v.data.any Char.isLower

/-- The declared field validator of UserCreateSchema.password:
`validate.Length(min=8, max=100)`. -/
def passwordLengthCheck (v : String) : Except VErr Unit :=
  if 8 ≤ pyLen v ∧ pyLen v ≤ 100 then Except.ok ()
  else Except.error (VErr.msg "Length must be between 8 and 100.")

/-- UserCreateSchema.validate_password (schemas.py lines 75-83). -/
def validate_password (v : String) : Except VErr Unit :=
  if !(hasDigit v) then
    Except.error (VErr.msg "Password must contain at least one digit")
  else if !(hasUpper v) then
    Except.error (VErr.msg "Password must contain at least one uppercase letter")
  else if !(hasLower v) then
    Except.error (VErr.msg "Password must contain at least one lowercase letter")
  else Except.ok ()

def isOkE (e : Except VErr Unit) : Bool :=
  match e with
  | Except.ok _ => true
  | Except.error _ => false

/-- A password passes UserCreateSchema validation iff both the declared
Length(8,100) validator and validate_password accept it. -/
def passwordAccepted (v : String) : Bool :=
  isOkE (passwordLengthCheck v) && isOkE (validate_password v)

/-- GroupSchema.validate_parent_group (schemas.py lines 157-171).
`if value:` skips validation on a Python-falsy value (None or 0). -/
def validate_parent_group (s : Store) (inst : Option GroupRec)
    (value : Option Nat) : Except VErr Unit :=
  match value with
  | none => Except.ok ()
  | some v =>
      if v == 0 then Except.ok ()
      else
        match s.groups.find? (fun g => g.id == v) with
        | none => Except.error (VErr.msg "Parent group does not exist")
        | some parent =>
            match inst with
            | some inst =>
                if v == inst.id then
                  Except.error (VErr.msg "Group cannot be its own parent")
                else if parent.parent_group_id == some inst.id then
                  Except.error
                    (VErr.msg "Circular parent-child relationship detected")
                else Except.ok ()
            | none => Except.ok ()

/-- The `^[a-z0-9-]+$` regex of PageSchema.validate_slug. -/
def slugFormatOk (v : String) : Bool :=
  !v.data.isEmpty &&
    v.data.all (fun c => ('a' ≤ c && c ≤ 'z') || c.isDigit || c == '-')

/-- PageSchema.validate_slug (schemas.py lines 350-362): format check,
then uniqueness excluding the instance itself. -/
def validate_slug (s : Store) (inst : Option PageRec) (value : String) :
    Except VErr Unit :=
  if !(slugFormatOk value) then
    Except.error
      (VErr.msg "Slug must contain only lowercase letters, numbers, and hyphens")
  else
    match (s.pages.filter (fun p => p.slug == value)).head? with
    | some existing =>
        if (match inst with
            | none => true
            | some inst => existing.id != inst.id) then
          Except.error (VErr.msg "Slug already exists")
        else Except.ok ()
    | none => Except.ok ()

/-- GroupMemberSchema.validate_group_member (schemas.py lines 104-114):
duplicate (group_id, user_id) check excluding the instance itself; runs
only when both keys are present in the payload. -/
def validate_group_member (s : Store) (inst : Option GroupMemberRow)
    (group_id : Option Nat) (user_id : Option Nat) : Except VErr Unit :=
  match group_id, user_id with
  | some gid, some uid =>
      match (s.group_members.filter
              (fun r => r.group_id == gid && r.user_id == uid)).head? with
      | some existing =>
          if (match inst with
              | none => true
              | some inst => existing.id != inst.id) then
            Except.error
              (VErr.fieldMsgs "user_id" ["User is already a member of this group"])
          else Except.ok ()
      | none => Except.ok ()
  | _, _ => Except.ok ()

/-- EventRegistrationSchema.validate_registration (schemas.py lines
195-213): duplicate (event_id, user_id) check excluding the instance,
then the capacity check. The capacity check uses
`len(event.registrations)` - the count of ALL registration rows of the
event, with no filter on status - and `if event and event.max_attendees:`
skips it when the cap is Python-falsy (None or 0). -/
def validate_registration (s : Store) (inst : Option EventRegistrationRec)
    (event_id : Option Nat) (user_id : Option Nat) : Except VErr Unit :=
  match event_id, user_id with
  | some eid, some uid =>
      match (s.registrations.filter
              (fun r => r.event_id == eid && r.user_id == uid)).head? with
      | some existing =>
          if (match inst with
              | none => true
              | some inst => existing.id != inst.id) then
            Except.error
              (VErr.fieldMsgs "user_id" ["User is already registered for this event"])
          else
            match s.events.find? (fun ev => ev.id == eid) with
            | some ev =>
                match ev.max_attendees with
                | some m =>
                    if m == 0 then Except.ok ()
                    else if m ≤ (eventRegistrationsOf s eid).length then
                      Except.error (VErr.fieldMsgs "event_id" ["Event is full"])
                    else Except.ok ()
                | none => Except.ok ()
            | none => Except.ok ()
      | none =>
          match s.events.find? (fun ev => ev.id == eid) with
          | some ev =>
              match ev.max_attendees with
              | some m =>
                  if m == 0 then Except.ok ()
                  else if m ≤ (eventRegistrationsOf s eid).length then
                    Except.error (VErr.fieldMsgs "event_id" ["Event is full"])
                  else Except.ok ()
              | none => Except.ok ()
          | none => Except.ok ()
  | _, _ => Except.ok ()

/-- The count the specification describes for the capacity check: only the
CONFIRMED registrations of the event. Stated from the spec wording
("count existing confirmed registrations") for comparison with the
source-derived `validate_registration` above. -/
def specConfirmedCount (s : Store) (eid : Nat) : Nat :=
  (s.registrations.filter
    (fun r => r.event_id == eid && r.status == "confirmed")).length

-- ============================================
-- Request handlers (app.py)
-- ============================================

/-- CheckSession.get (app.py lines 16-29). `if not user_id:` treats 0 as
falsy. On a resolvable user the handler executes
`schemas.UserSchema.dump(user)` - calling `dump` on the CLASS, so `user`
binds the `self` parameter and the `obj` argument is missing: an uncaught
TypeError propagates to the framework (`CSOut.exn`). -/
def checkSessionGet (s : Store) (sess : Session) : Session × CSOut :=
  match sessGet sess (PyKey.str "user_id") with
  | none => (sess, CSOut.resp (401, [("error", JVal.str "Not authenticated")]))
  | some uid =>
      if uid == 0 then
        (sess, CSOut.resp (401, [("error", JVal.str "Not authenticated")]))
      else
        match s.users.find? (fun u => u.id == uid) with
        | none =>
            (sessPop sess (PyKey.str "user_id"),
             CSOut.resp (401, [("error", JVal.str "Not authenticated")]))
        | some _ =>
            (sess, CSOut.exn "TypeError")

/-- Logout.delete (app.py lines 55-63). After confirming the binding it
runs `session.pop(user_id, None)`: the POPPED KEY IS THE INTEGER VALUE of
the user id, not the string key used to store the binding, so the
`user_id` binding itself is left in the session. -/
def logoutDelete (sess : Session) : Session × Resp :=
  match sessGet sess (PyKey.str "user_id") with
  | none => (sess, (401, [("error", JVal.str "Not authenticated")]))
  | some uid =>
      if uid == 0 then
        (sess, (401, [("error", JVal.str "Not authenticated")]))
      else
        (sessPop sess (PyKey.int uid),
         (200, [("message", JVal.str "Logout successful")]))

/-- Login.post (app.py lines 33-53). Faithful points:
  * the presence check requires the MISSPELLED key `useranme` (plus
    `password`) and answers 400 with the misspelled message;
  * line 40 then reads `data['username']`: if that key is absent the
    KeyError is caught by `except Exception` and answered as
    500 with `str(e)`;
  * on a successful password check the session is bound, after which
    `models.user_schema.dump(user)` raises AttributeError (models.py
    defines no `user_schema`), again answered as 500 with `str(e)`.
`chk` abstracts `bcrypt.check_password_hash(stored_hash, password)`. -/
def loginPost (chk : String → String → Bool) (s : Store) (sess : Session)
    (data : Option Dict) : Session × Resp :=
  match data with
  | none => (sess, (400, [("error", JVal.str "MIssing required fields")]))
  | some d =>
      if d.isEmpty || !(hasKey d "useranme" && hasKey d "password") then
        (sess, (400, [("error", JVal.str "MIssing required fields")]))
      else
        match dGet d "username" with
        | none => (sess, (500, [("error", JVal.str (keyErrStr "username"))]))
        | some uname =>
            match (s.users.filter (fun u => u.username == uname)).head? with
            | none => (sess, (401, [("message", JVal.str "Invalid credentials")]))
            | some user =>
                if user._password_hash == "" then
                  (sess, (401, [("message", JVal.str "Invalid credentials")]))
                else
                  match dGet d "password" with
                  | none =>
                      (sess, (500, [("error", JVal.str (keyErrStr "password"))]))
                  | some pw =>
                      if chk user._password_hash pw then
                        (sessSet sess (PyKey.str "user_id") user.id,
                         (500,
                          [("error",
                            JVal.str "module \x27models\x27 has no attribute \x27user_schema\x27")]))
                      else
                        (sess, (401, [("message", JVal.str "Invalid credentials")]))

/-- The next autoincrement id the store assigns on insert. -/
def nextUserId (s : Store) : Nat :=
  (s.users.map (fun u => u.id)).foldr Nat.max 0 + 1

/-- SignUp.post (app.py lines 67-93). Faithful points:
  * the presence check is INVERTED in the source
    (`if not data or all(c in data for c in [...])`), so a payload
    carrying ALL of username/email/password is the one rejected with
    401 "Missing required fields";
  * past the gate at least one of the three keys is missing, so
    `data['username']` / `data['email']` may raise KeyError, answered by
    `except Exception` as 500 with the registration-prefixed `str(e)`;
  * `except ValidationError` (lines 90-91) sits AFTER `except Exception`
    and is dead code: schema validation errors also take the 500 branch.
`load` abstracts `schemas.user_create_schema.load(data)`: it returns the
new User row or the `str(e)` of the exception it raises. -/
def signUpPost (load : Store → Dict → Except String UserRec) (s : Store)
    (sess : Session) (data : Option Dict) : Store × Session × Resp :=
  match data with
  | none => (s, sess, (401, [("error", JVal.str "Missing required fields")]))
  | some d =>
      if d.isEmpty then
        (s, sess, (401, [("error", JVal.str "Missing required fields")]))
      else if hasKey d "username" && hasKey d "email" && hasKey d "password" then
        (s, sess, (401, [("error", JVal.str "Missing required fields")]))
      else
        match dGet d "username" with
        | none =>
            (s, sess,
             (500,
              [("error",
                JVal.str ("An error occured during registration: " ++
                          keyErrStr "username"))]))
        | some uname =>
            if ((s.users.filter (fun u => u.username == uname)).head?).isSome then
              (s, sess, (400, [("error", JVal.str "Username already exists")]))
            else
              match dGet d "email" with
              | none =>
                  (s, sess,
                   (500,
                    [("error",
                      JVal.str ("An error occured during registration: " ++
                                keyErrStr "email"))]))
              | some em =>
                  if ((s.users.filter (fun u => u.email == em)).head?).isSome then
                    (s, sess, (400, [("error", JVal.str "Email already exists")]))
                  else
                    match load s d with
                    | Except.error e =>
                        (s, sess,
                         (500,
                          [("error",
                            JVal.str ("An error occured during registration: " ++ e))]))
                    | Except.ok newU =>
                        (({ s with
                            users := s.users ++ [{ newU with id := nextUserId s }] }),
                         sessSet sess (PyKey.str "user_id") (nextUserId s),
                         (201, userSchemaDump { newU with id := nextUserId s }))

-- ============================================
-- GroupMember table constraints (models.py lines 147-157)
-- ============================================

/-- The column constraints the GroupMember table declares: `id` is the
primary key, and `user_id` and `group_id` EACH carry their own
single-column `unique=True` constraint. -/
def gmConstraintsOk (rows : List GroupMemberRow) : Prop :=
  rows.Pairwise (fun a b => a.id ≠ b.id ∧ a.user_id ≠ b.user_id ∧ a.group_id ≠ b.group_id)

/-- Mere uniqueness of the (group, user) pair, for comparison. -/
def gmPairUnique (rows : List GroupMemberRow) : Prop :=
  rows.Pairwise (fun a b => ¬(a.group_id = b.group_id ∧ a.user_id = b.user_id))

-- ============================================
-- Store-level uniqueness predicates (models.py unique constraints)
-- ============================================

/-- Store invariant from `users.email` being `unique=True`. -/
def usersEmailUnique (s : Store) : Prop :=
  s.users.Pairwise (fun a b => a.email ≠ b.email)

/-- Store invariant from `pages.slug` being `unique=True`. -/
def pagesSlugUnique (s : Store) : Prop :=
  s.pages.Pairwise (fun a b => a.slug ≠ b.slug)

/-- Store invariant: at most one membership row per (group, user) pair. -/
def groupMembersPairUnique (s : Store) : Prop :=
  s.group_members.Pairwise (fun a b => ¬(a.group_id = b.group_id ∧ a.user_id = b.user_id))

/-- Store invariant: at most one registration row per (event, user) pair. -/
def registrationsPairUnique (s : Store) : Prop :=
  s.registrations.Pairwise (fun a b => ¬(a.event_id = b.event_id ∧ a.user_id = b.user_id))

-- ============================================
-- Concrete fixtures
-- ============================================

def emptyStore : Store :=
  { users := [], groups := [], group_members := [], events := [],
    registrations := [], pages := [] }

/-- An event with a cap of one attendee. -/
def ev1 : EventRec := { id := 1, title := "Church Picnic", max_attendees := some 1 }

/-- A CANCELLED registration of user 1 for event 1. -/
def regCancelled : EventRegistrationRec :=
  { id := 1, event_id := 1, user_id := 1, guests_count := 0, status := "cancelled" }

def storeC1 : Store := { emptyStore with events := [ev1], registrations := [regCancelled] }

def aliceUser : UserRec :=
  { id := 1, username := "alice", email := "a@x.com", _password_hash := "h1",
    created_at := "2025-01-01", member := none }

def storeC3 : Store := { emptyStore with users := [aliceUser] }

def sessC3 : Session := [(PyKey.str "user_id", 1)]

def userC5 : UserRec :=
  { id := 7, username := "bob", email := "b@x.com", _password_hash := "bcrypt-hash",
    created_at := "2025-01-02", member := none }

/-- A 101-character password containing a digit, an uppercase and
lowercase letters. -/
def longPwd : String := String.mk ('A' :: '1' :: List.replicate 99 'a')

def gA : GroupRec :=
  { id := 1, name := "A", group_type := "other", parent_group_id := none, leader_id := none }

def gB : GroupRec :=
  { id := 2, name := "B", group_type := "other", parent_group_id := some 3, leader_id := none }

def gC : GroupRec :=
  { id := 3, name := "C", group_type := "other", parent_group_id := some 1, leader_id := none }

/-- Groups forming the two-level ancestry 2 -> 3 -> 1: setting group 1's
parent to group 2 closes a three-cycle that the shallow guard misses. -/
def storeC7 : Store := { emptyStore with groups := [gA, gB, gC] }

def pageHome : PageRec := { id := 1, title := "Home", slug := "home", status := "published" }

def storeC8 : Store := { emptyStore with users := [aliceUser], pages := [pageHome] }

/-- Two membership rows with the same user in different groups:
(group, user)-pair-unique, yet violating the declared single-column
uniqueness of `user_id`. -/
def strictRows : List GroupMemberRow :=
  [{ id := 1, user_id := 5, group_id := 10, role := "member" },
   { id := 2, user_id := 5, group_id := 11, role := "member" }]

def rowsC10 : List GroupMemberRow :=
  [{ id := 1, user_id := 5, group_id := 10, role := "member" },
   { id := 2, user_id := 6, group_id := 11, role := "leader" }]

/-- A CONFIRMED registration of user 1 for event 1. -/
def regConfirmed : EventRegistrationRec :=
  { id := 1, event_id := 1, user_id := 1, guests_count := 0, status := "confirmed" }

/-- A one-seat event that is exactly at capacity with `regConfirmed`. -/
def storeFullC8 : Store := { emptyStore with events := [ev1], registrations := [regConfirmed] }

-- ============================================
-- Helper lemmas
-- ============================================

/-- If pairwise at most one element of the list satisfies `p` and the
member `u` satisfies it, the filter is exactly `[u]`. -/
theorem filter_eq_single_of_pairwise {α : Type} (p : α → Bool) :
    ∀ (l : List α) (u : α), u ∈ l → p u = true →
      l.Pairwise (fun a b => ¬(p a = true ∧ p b = true)) →
      l.filter p = [u] := by
  intro l
  induction l with
  | nil => intro u hu _ _; cases hu
  | cons x xs ih =>
      intro u hu hp hpw
      rcases List.pairwise_cons.mp hpw with ⟨hhead, htail⟩
      rcases List.mem_cons.mp hu with heq | hmem
      · subst heq
        have hxs : xs.filter p = [] := by
          apply List.filter_eq_nil_iff.mpr
          intro b hb hpb
          exact hhead b hb ⟨hp, hpb⟩
        simp [List.filter_cons, hp, hxs]
      · have hpx : p x = false := by
          cases ht : p x with
          | false => rfl
          | true => exact absurd ⟨ht, hp⟩ (hhead u hmem)
        simp only [List.filter_cons, hpx, Bool.false_eq_true, if_false]
        exact ih u hmem hp htail

/-- If pairwise at most one element of the list satisfies `p`, the filter
has length at most one. -/
theorem length_filter_le_one {α : Type} (p : α → Bool) :
    ∀ (l : List α), l.Pairwise (fun a b => ¬(p a = true ∧ p b = true)) →
      (l.filter p).length ≤ 1 := by
  intro l
  induction l with
  | nil => intro _; simp
  | cons x xs ih =>
      intro hpw
      rcases List.pairwise_cons.mp hpw with ⟨hhead, htail⟩
      cases ht : p x with
      | false =>
          simp only [List.filter_cons, ht, Bool.false_eq_true, if_false]
          exact ih htail
      | true =>
          have hxs : xs.filter p = [] := by
            apply List.filter_eq_nil_iff.mpr
            intro b hb hpb
            exact hhead b hb ⟨ht, hpb⟩
          simp [List.filter_cons, ht, hxs]

-- ============================================
-- Claim theorems
-- ============================================

deriving instance DecidableEq for Except

/-- Claim C2 (code bug evaluation): the SignUp presence check is inverted
in app.py line 72 (`all(...)` without `not`), so a payload that carries
ALL of username, email and password - which the claim says must proceed to
the duplicate and schema checks and succeed with 201 - is instead rejected
with the missing-required-fields error (status 401), for every store,
session and load behaviour. -/
theorem C2_signup_presence_check_inverted
    (load : Store → Dict → Except String UserRec) (s : Store) (sess : Session) :
    signUpPost load s sess
        (some [("username", "alice"), ("email", "a@x.com"), ("password", "Abcd1234")]) =
      (s, sess, (401, [("error", JVal.str "Missing required fields")])) := rfl

/-- Claim C3 (code bug evaluation): with the session bound
(`user_id -> 1`) and user 1 present, Logout answers 200 but pops the
INTEGER key `1` instead of the string key `user_id`, so the session comes
back unchanged and still bound; the immediately following check_session
does not answer 401 - it reaches `schemas.UserSchema.dump(user)`, which is
called on the class and raises an uncaught TypeError. -/
theorem C3_logout_leaves_session_binding :
    logoutDelete sessC3 = (sessC3, (200, [("message", JVal.str "Logout successful")])) ∧
    sessGet sessC3 (PyKey.str "user_id") = some 1 ∧
    checkSessionGet storeC3 sessC3 = (sessC3, CSOut.exn "TypeError") := by
  refine ⟨by decide, by decide, by decide⟩

/-- Claim C4 (code bug evaluation): a login body containing exactly the
keys username and password - which the claim says must be answered 200 or
401 - is rejected 400 with the misspelled missing-fields message, because
app.py line 37 requires the misspelled key `useranme`; this holds for
every hash checker, store and session. -/
theorem C4_login_requires_misspelled_key
    (chk : String → String → Bool) (s : Store) (sess : Session) :
    loginPost chk s sess (some [("username", "alice"), ("password", "Secret1x")]) =
      (sess, (400, [("error", JVal.str "MIssing required fields")])) := rfl

/-- Claim C9 (counterexample): at the concrete login body containing
`useranme` and `password` but no `username`, the handler answers 500 and
the body carries the KeyError detail text (the quoted key name) - not a
generic message; the sign-up handler likewise embeds the detail into its
500 message. This refutes the claim that exception detail is never sent. -/
theorem C9_counterexample_exception_detail_exposed :
    (loginPost (fun _ _ => false) emptyStore []
        (some [("useranme", "alice"), ("password", "pw")])).2 =
      (500, [("error", JVal.str (keyErrStr "username"))]) ∧
    (signUpPost (fun _ _ => Except.error "boom") emptyStore []
        (some [("email", "a@x.com")])).2.2 =
      (500,
       [("error",
         JVal.str ("An error occured during registration: " ++ keyErrStr "username"))]) :=
  ⟨rfl, rfl⟩

/-- Claim C9 (amended): when the login or sign-up try-block raises, the
handler answers 500 with a body that EMBEDS the exception detail `str(e)`:
for every hash checker, load behaviour, store and session, the KeyError
raised by the given bodies surfaces verbatim in the response. -/
theorem C9_handlers_embed_exception_detail
    (chk : String → String → Bool) (load : Store → Dict → Except String UserRec)
    (s : Store) (sess : Session) :
    loginPost chk s sess (some [("useranme", "alice"), ("password", "pw")]) =
      (sess, (500, [("error", JVal.str (keyErrStr "username"))])) ∧
    signUpPost load s sess (some [("email", "a@x.com")]) =
      (s, sess,
       (500,
        [("error",
          JVal.str ("An error occured during registration: " ++ keyErrStr "username"))])) :=
  ⟨rfl, rfl⟩

/-- Claim C5 (counterexample): UserCreateSchema is a serialization schema
of the system whose dump of a concrete user DOES contain the
`_password_hash` field, because its Meta excludes only id and created_at. -/
theorem C5_counterexample_create_schema_dumps_hash :
    ("_password_hash", JVal.str "bcrypt-hash") ∈ userCreateSchemaDump userC5 := by
  decide

/-- Claim C5 (amended): for every user, the dumps of UserSchema - the
schema every handler and nested user field serializes with - and of its
`only=(id, email, full_name)` nested form never contain `_password_hash`,
while the dump of UserCreateSchema (used in the code only for loading)
does contain it. -/
theorem C5_user_schema_never_dumps_hash (u : UserRec) :
    "_password_hash" ∉ (userSchemaDump u).map Prod.fst ∧
    "_password_hash" ∉ (userNestedDump u).map Prod.fst ∧
    "_password_hash" ∈ (userCreateSchemaDump u).map Prod.fst := by
  refine ⟨?_, ?_, ?_⟩ <;> simp [userSchemaDump, userNestedDump, userCreateSchemaDump]

/-- Claim C6 (counterexample): a 101-character password that is at least
8 characters long and has a digit, an uppercase and a lowercase letter -
which the claim says is accepted - is rejected, because the declared
validator also enforces `max=100`. -/
theorem C6_counterexample_long_password_rejected :
    (8 ≤ pyLen longPwd ∧ hasDigit longPwd = true ∧ hasUpper longPwd = true ∧
      hasLower longPwd = true) ∧
    passwordAccepted longPwd = false := by
  decide

/-- Claim C6 (amended): a password passes UserCreateSchema validation
exactly when its length lies between 8 and 100 AND it contains at least
one digit, one uppercase and one lowercase letter; in particular
"abc12345" is rejected and "Abc12345" is accepted. -/
theorem C6_password_policy_iff :
    (∀ v : String, passwordAccepted v = true ↔
      (8 ≤ pyLen v ∧ pyLen v ≤ 100 ∧ hasDigit v = true ∧ hasUpper v = true ∧
        hasLower v = true)) ∧
    passwordAccepted "abc12345" = false ∧
    passwordAccepted "Abc12345" = true := by
  refine ⟨?_, by decide, by decide⟩
  intro v
  have hlen : isOkE (passwordLengthCheck v) = true ↔ (8 ≤ pyLen v ∧ pyLen v ≤ 100) := by
    unfold passwordLengthCheck isOkE
    split_ifs with h
    · simp [h]
    · simp [h]
  have hpw : isOkE (validate_password v) = true ↔
      (hasDigit v = true ∧ hasUpper v = true ∧ hasLower v = true) := by
    unfold validate_password isOkE
    split_ifs with h1 h2 h3
    · simp_all
    · simp_all
    · simp_all
    · simp_all
  rw [passwordAccepted, Bool.and_eq_true, hlen, hpw]
  tauto

/-- Claim C1 (counterexample): event 1 has max_attendees = 1 and a single
CANCELLED registration, so the confirmed count is 0 and below the cap -
by the claim a registration attempt by new user 2 must succeed - yet the
code rejects it with "Event is full", because it counts all registration
rows regardless of status. -/
theorem C1_counterexample_cancelled_still_counts :
    specConfirmedCount storeC1 1 = 0 ∧ specConfirmedCount storeC1 1 < 1 ∧
    validate_registration storeC1 none (some 1) (some 2) =
      Except.error (VErr.fieldMsgs "event_id" ["Event is full"]) := by
  decide

/-- Claim C1 (amended): the capacity check counts ALL existing
registration rows of the event regardless of status: for every store, if
the event exists with a positive cap `m` and the new (event, user) pair
has no existing row, the validation rejects with "Event is full" exactly
when the total number of registration rows (cancelled ones included) is
at least `m` - so cancelling a registration does not free capacity. -/
theorem C1_capacity_counts_all_statuses (s : Store) (eid uid m : Nat) (ev : EventRec)
    (hev : s.events.find? (fun e => e.id == eid) = some ev)
    (hmax : ev.max_attendees = some m) (hm : 0 < m)
    (hdup : s.registrations.filter (fun r => r.event_id == eid && r.user_id == uid) = []) :
    (validate_registration s none (some eid) (some uid) =
        Except.error (VErr.fieldMsgs "event_id" ["Event is full"]) ↔
      m ≤ (eventRegistrationsOf s eid).length) := by
  have hm0 : (m == 0) = false := by
    simp [Nat.pos_iff_ne_zero.mp hm]
  by_cases hc : m ≤ (eventRegistrationsOf s eid).length
  · simp [validate_registration, hdup, hev, hmax, hm0, hc]
  · simp [validate_registration, hdup, hev, hmax, hm0, hc]

/-- Claim C1 (witness): the amended theorem applied to the concrete store
with one cancelled registration on a one-seat event. -/
theorem C1_capacity_witness :
    (storeC1.events.find? (fun e => e.id == 1) = some ev1 ∧
      ev1.max_attendees = some 1 ∧ 0 < 1 ∧
      storeC1.registrations.filter (fun r => r.event_id == 1 && r.user_id == 2) = []) ∧
    (validate_registration storeC1 none (some 1) (some 2) =
        Except.error (VErr.fieldMsgs "event_id" ["Event is full"]) ↔
      1 ≤ (eventRegistrationsOf storeC1 1).length) :=
  ⟨⟨by decide, by decide, by decide, by decide⟩,
   C1_capacity_counts_all_statuses storeC1 1 2 1 ev1 (by decide) (by decide)
     (by decide) (by decide)⟩

/-- Claim C7: for every store and every payload with a truthy
parent_group_id `v`, validation succeeds exactly when the parent exists
and - on update - the parent is not the group itself and the parent's own
parent_group_id is not the group's id; nothing deeper is examined, so the
concrete two-level ancestry 2 -> 3 -> 1 is accepted as parent of group 1
even though it closes a three-cycle. -/
theorem C7_parent_group_validation_iff (s : Store) (inst : GroupRec) (v : Nat)
    (h : 0 < v) :
    (validate_parent_group s none (some v) = Except.ok () ↔
      (s.groups.find? (fun g => g.id == v)).isSome = true) ∧
    (validate_parent_group s (some inst) (some v) = Except.ok () ↔
      (∃ p, s.groups.find? (fun g => g.id == v) = some p ∧ v ≠ inst.id ∧
        p.parent_group_id ≠ some inst.id)) ∧
    validate_parent_group storeC7 (some gA) (some 2) = Except.ok () := by
  have hv : (v == 0) = false := by
    simp [Nat.pos_iff_ne_zero.mp h]
  refine ⟨?_, ?_, by decide⟩
  · cases hf : s.groups.find? (fun g => g.id == v) with
    | none => simp [validate_parent_group, hv, hf]
    | some p => simp [validate_parent_group, hv, hf]
  · cases hf : s.groups.find? (fun g => g.id == v) with
    | none => simp [validate_parent_group, hv, hf]
    | some p =>
        by_cases h1 : v = inst.id
        · subst h1
          simp [validate_parent_group, hv, hf]
        · by_cases h2 : p.parent_group_id = some inst.id
          · simp [validate_parent_group, hv, hf, h1, h2]
          · simp [validate_parent_group, hv, hf, h1, h2]

/-- Claim C7 (witness): the iff applied to the deep-cycle store at parent
value 2, whose hypotheses hold by evaluation. -/
theorem C7_parent_group_witness :
    (0 : Nat) < 2 ∧
    (validate_parent_group storeC7 (some gA) (some 2) = Except.ok () ↔
      (∃ p, storeC7.groups.find? (fun g => g.id == 2) = some p ∧ 2 ≠ gA.id ∧
        p.parent_group_id ≠ some gA.id)) :=
  ⟨by decide, (C7_parent_group_validation_iff storeC7 gA 2 (by decide)).2.1⟩

/-- Claim C8 (amended): for each uniqueness-validated field - user email,
page slug, (group_id, user_id) pair, (event_id, user_id) pair - creating
with a value an existing entity already holds raises the ValidationError
of that field; updating an entity against the value it already holds
passes the conflict check, because the hit with the entity id of its own
is excluded, and for email, slug and the group-member pair the validation
then succeeds outright. For an event-registration self-update the outcome
past the conflict check is decided by the capacity check, which counts the
row of the instance itself: the validation returns ok or rejects with the
capacity error "Event is full" (never the duplicate error). -/
theorem C8_uniqueness_checks :
    (∀ (s : Store) (v : String),
      ((s.users.filter (fun u => u.email == v)).head?).isSome = true →
      validate_email s none v = Except.error (VErr.msg "Email already registered")) ∧
    (∀ (s : Store) (u : UserRec), u ∈ s.users → usersEmailUnique s →
      validate_email s (some u) u.email = Except.ok ()) ∧
    (∀ (s : Store) (v : String), slugFormatOk v = true →
      ((s.pages.filter (fun p => p.slug == v)).head?).isSome = true →
      validate_slug s none v = Except.error (VErr.msg "Slug already exists")) ∧
    (∀ (s : Store) (pg : PageRec), pg ∈ s.pages → pagesSlugUnique s →
      slugFormatOk pg.slug = true →
      validate_slug s (some pg) pg.slug = Except.ok ()) ∧
    (∀ (s : Store) (gid uid : Nat),
      ((s.group_members.filter
          (fun r => r.group_id == gid && r.user_id == uid)).head?).isSome = true →
      validate_group_member s none (some gid) (some uid) =
        Except.error (VErr.fieldMsgs "user_id" ["User is already a member of this group"])) ∧
    (∀ (s : Store) (r : GroupMemberRow), r ∈ s.group_members →
      groupMembersPairUnique s →
      validate_group_member s (some r) (some r.group_id) (some r.user_id) =
        Except.ok ()) ∧
    (∀ (s : Store) (eid uid : Nat),
      ((s.registrations.filter
          (fun x => x.event_id == eid && x.user_id == uid)).head?).isSome = true →
      validate_registration s none (some eid) (some uid) =
        Except.error (VErr.fieldMsgs "user_id" ["User is already registered for this event"])) ∧
    (∀ (s : Store) (r : EventRegistrationRec), r ∈ s.registrations →
      registrationsPairUnique s →
      validate_registration s (some r) (some r.event_id) (some r.user_id) =
          Except.ok () ∨
        validate_registration s (some r) (some r.event_id) (some r.user_id) =
          Except.error (VErr.fieldMsgs "event_id" ["Event is full"])) := by
  refine ⟨?_, ?_, ?_, ?_, ?_, ?_, ?_, ?_⟩
  · intro s v hsome
    cases hh : (s.users.filter (fun u => u.email == v)).head? with
    | none => rw [hh] at hsome; simp at hsome
    | some ex => simp [validate_email, hh]
  · intro s u hu huniq
    have huniq2 : s.users.Pairwise (fun a b => a.email ≠ b.email) := huniq
    have hp : (fun x : UserRec => x.email == u.email) u = true := by simp
    have hpw : s.users.Pairwise
        (fun a b => ¬((a.email == u.email) = true ∧ (b.email == u.email) = true)) := by
      refine huniq2.imp ?_
      intro a b hab hcon
      exact hab ((eq_of_beq hcon.1).trans (eq_of_beq hcon.2).symm)
    have hfil := filter_eq_single_of_pairwise
      (fun x : UserRec => x.email == u.email) s.users u hu hp hpw
    simp [validate_email, hfil]
  · intro s v hfmt hsome
    cases hh : (s.pages.filter (fun p => p.slug == v)).head? with
    | none => rw [hh] at hsome; simp at hsome
    | some ex => simp [validate_slug, hfmt, hh]
  · intro s pg hpg huniq hfmt
    have huniq2 : s.pages.Pairwise (fun a b => a.slug ≠ b.slug) := huniq
    have hp : (fun x : PageRec => x.slug == pg.slug) pg = true := by simp
    have hpw : s.pages.Pairwise
        (fun a b => ¬((a.slug == pg.slug) = true ∧ (b.slug == pg.slug) = true)) := by
      refine huniq2.imp ?_
      intro a b hab hcon
      exact hab ((eq_of_beq hcon.1).trans (eq_of_beq hcon.2).symm)
    have hfil := filter_eq_single_of_pairwise
      (fun x : PageRec => x.slug == pg.slug) s.pages pg hpg hp hpw
    simp [validate_slug, hfmt, hfil]
  · intro s gid uid hsome
    cases hh : (s.group_members.filter
        (fun r => r.group_id == gid && r.user_id == uid)).head? with
    | none => rw [hh] at hsome; simp at hsome
    | some ex => simp [validate_group_member, hh]
  · intro s r hr huniq
    have huniq2 : s.group_members.Pairwise
        (fun a b => ¬(a.group_id = b.group_id ∧ a.user_id = b.user_id)) := huniq
    have hp : (fun x : GroupMemberRow =>
        x.group_id == r.group_id && x.user_id == r.user_id) r = true := by simp
    have hpw : s.group_members.Pairwise (fun a b =>
        ¬((a.group_id == r.group_id && a.user_id == r.user_id) = true ∧
          (b.group_id == r.group_id && b.user_id == r.user_id) = true)) := by
      refine huniq2.imp ?_
      intro a b hab hcon
      have h1 := hcon.1
      have h2 := hcon.2
      simp only [Bool.and_eq_true] at h1 h2
      exact hab ⟨(eq_of_beq h1.1).trans (eq_of_beq h2.1).symm,
                 (eq_of_beq h1.2).trans (eq_of_beq h2.2).symm⟩
    have hfil := filter_eq_single_of_pairwise
      (fun x : GroupMemberRow => x.group_id == r.group_id && x.user_id == r.user_id)
      s.group_members r hr hp hpw
    simp [validate_group_member, hfil]
  · intro s eid uid hsome
    cases hh : (s.registrations.filter
        (fun x => x.event_id == eid && x.user_id == uid)).head? with
    | none => rw [hh] at hsome; simp at hsome
    | some ex => simp [validate_registration, hh]
  · intro s r hr huniq
    have huniq2 : s.registrations.Pairwise
        (fun a b => ¬(a.event_id = b.event_id ∧ a.user_id = b.user_id)) := huniq
    have hp : (fun x : EventRegistrationRec =>
        x.event_id == r.event_id && x.user_id == r.user_id) r = true := by simp
    have hpw : s.registrations.Pairwise (fun a b =>
        ¬((a.event_id == r.event_id && a.user_id == r.user_id) = true ∧
          (b.event_id == r.event_id && b.user_id == r.user_id) = true)) := by
      refine huniq2.imp ?_
      intro a b hab hcon
      have h1 := hcon.1
      have h2 := hcon.2
      simp only [Bool.and_eq_true] at h1 h2
      exact hab ⟨(eq_of_beq h1.1).trans (eq_of_beq h2.1).symm,
                 (eq_of_beq h1.2).trans (eq_of_beq h2.2).symm⟩
    have hfil := filter_eq_single_of_pairwise
      (fun x : EventRegistrationRec => x.event_id == r.event_id && x.user_id == r.user_id)
      s.registrations r hr hp hpw
    simp only [validate_registration, hfil, List.head?_cons, bne_self_eq_false,
      Bool.false_eq_true, if_false]
    cases hf : s.events.find? (fun ev => ev.id == r.event_id) with
    | none => left; simp
    | some ev =>
        cases hm : ev.max_attendees with
        | none => left; simp [hm]
        | some m =>
            by_cases h0 : m = 0
            · left; simp [hm, h0]
            · by_cases hc : m ≤ (eventRegistrationsOf s r.event_id).length
              · right; simp [hm, h0, hc]
              · left; simp [hm, h0, hc]

/-- Claim C8 (counterexample): a legitimate store - registration pairs
unique, one confirmed registration of user 1 on one-seat event 1 - in
which updating that very registration against the (event_id, user_id)
value it already holds does NOT succeed: the duplicate check excludes the
row of the instance, but the capacity check counts that same row, so the
self-update is rejected with "Event is full", refuting the claim that
such an update succeeds for every uniqueness-validated entity type. -/
theorem C8_counterexample_self_update_rejected_when_full :
    registrationsPairUnique storeFullC8 ∧
    regConfirmed ∈ storeFullC8.registrations ∧
    validate_registration storeFullC8 (some regConfirmed) (some 1) (some 1) =
      Except.error (VErr.fieldMsgs "event_id" ["Event is full"]) := by
  refine ⟨?_, by decide, by decide⟩
  simp [registrationsPairUnique, storeFullC8, emptyStore]

/-- Claim C8 (witness): in a store holding user alice and page home,
creating with alice's email fails with the email ValidationError and
updating alice to her own email passes the check. -/
theorem C8_uniqueness_witness :
    validate_email storeC8 none "a@x.com" =
      Except.error (VErr.msg "Email already registered") ∧
    validate_email storeC8 (some aliceUser) aliceUser.email = Except.ok () :=
  ⟨C8_uniqueness_checks.1 storeC8 "a@x.com" (by decide),
   C8_uniqueness_checks.2.1 storeC8 aliceUser (by decide)
     (by simp [usersEmailUnique, storeC8, emptyStore])⟩

/-- Claim C10: with the constraints the GroupMember model declares -
single-column `unique=True` on `user_id` AND on `group_id` - every valid
list of membership rows has at most one row per user overall and at most
one row per group overall, hence also at most one per (group, user) pair;
and the constraint is strictly stronger than pair uniqueness, witnessed by
a pair-unique row set the declared constraints reject. -/
theorem C10_single_column_uniqueness (rows : List GroupMemberRow)
    (h : gmConstraintsOk rows) :
    (∀ uid, (rows.filter (fun r => r.user_id == uid)).length ≤ 1) ∧
    (∀ gid, (rows.filter (fun r => r.group_id == gid)).length ≤ 1) ∧
    (∀ gid uid,
      (rows.filter (fun r => r.group_id == gid && r.user_id == uid)).length ≤ 1) ∧
    (gmPairUnique strictRows ∧ ¬ gmConstraintsOk strictRows) := by
  have h2 : rows.Pairwise
      (fun a b => a.id ≠ b.id ∧ a.user_id ≠ b.user_id ∧ a.group_id ≠ b.group_id) := h
  refine ⟨?_, ?_, ?_, ?_, ?_⟩
  · intro uid
    apply length_filter_le_one
    refine h2.imp ?_
    intro a b hab hcon
    exact hab.2.1 ((eq_of_beq hcon.1).trans (eq_of_beq hcon.2).symm)
  · intro gid
    apply length_filter_le_one
    refine h2.imp ?_
    intro a b hab hcon
    exact hab.2.2 ((eq_of_beq hcon.1).trans (eq_of_beq hcon.2).symm)
  · intro gid uid
    apply length_filter_le_one
    refine h2.imp ?_
    intro a b hab hcon
    have hca := hcon.1
    have hcb := hcon.2
    simp only [Bool.and_eq_true] at hca hcb
    exact hab.2.2 ((eq_of_beq hca.1).trans (eq_of_beq hcb.1).symm)
  · simp [gmPairUnique, strictRows, List.pairwise_cons]
  · intro hbad
    have hbad2 : strictRows.Pairwise
        (fun a b => a.id ≠ b.id ∧ a.user_id ≠ b.user_id ∧ a.group_id ≠ b.group_id) := hbad
    simp [strictRows, List.pairwise_cons] at hbad2

/-- Claim C10 (witness): the theorem applied to a concrete two-row valid
table, bounding user 5 to at most one membership row. -/
theorem C10_single_column_witness :
    (rowsC10.filter (fun r => r.user_id == 5)).length ≤ 1 :=
  (C10_single_column_uniqueness rowsC10
    (by simp [gmConstraintsOk, rowsC10, List.pairwise_cons])).1 5
